import Mathlib

/-!
# NestScout scoring core — a shallow embedding

This file embeds the algorithmic core of the NestScout real-estate platform:
the POI proximity search (`nestscout/services/poi_service.py`), the rule-based
scoring engine (`nestscout/services/scoring_service.py`), the score store and
the API entry point for score computation (`nestscout/api/scores.py`).

Modelling conventions:

* Python `float` columns are modelled by `ℚ`; database ids by `ℕ`.
* Nullable columns are `Option` values.  Python truthiness on a nullable
  float (`if not prop.latitude`) treats both `None` and `0.0` as falsy,
  which `truthyQ` reproduces; likewise `truthyN` for nullable integer ids.
* `haversine_distance` (utils/geo.py) is a transcendental real-valued
  function (sin/cos/atan2); the services use it only as an opaque distance
  oracle, so it is a function-valued field `hav` of the catalog.
* A Python function that can raise (`min()` on an empty sequence,
  division by zero) is embedded with result type `Option _`; `none` is a
  raised exception propagating out of the scoring pass.
* SQLAlchemy queries are embedded as list operations over the table
  contents; `ORDER BY` is a stable merge sort over the stored row order.
* Python `round(x, n)` is modelled by `roundTo`; Python rounds halves to
  even while `round` here rounds halves up, a divergence only on exact
  ties, on which no claim depends.
-/

namespace NestScout

/-- Python `round(x, 2)`: round to two decimal places. -/
def round2 (x : ℚ) : ℚ := ((round (x * 100) : ℤ) : ℚ) / 100

/-- Python `round(x, 3)`: round to three decimal places. -/
def round3 (x : ℚ) : ℚ := ((round (x * 1000) : ℤ) : ℚ) / 1000

/-- Python `round(x, 1)`: round to one decimal place. -/
def round1 (x : ℚ) : ℚ := ((round (x * 10) : ℤ) : ℚ) / 10

/-- Python truthiness of a nullable float column: `None` and `0.0` are falsy. -/
def truthyQ (x : Option ℚ) : Bool :=
  match x with
  | none => false
  | some v => v ≠ 0

/-- Python truthiness of a nullable integer id column: `None` and `0` are falsy. -/
def truthyN (x : Option ℕ) : Bool :=
  match x with
  | none => false
  | some v => v ≠ 0

/-- Python `x or d` on a nullable float: `None` and `0.0` fall back to `d`. -/
def orDefault (x : Option ℚ) (d : ℚ) : ℚ :=
  match x with
  | none => d
  | some v => if v = 0 then d else v

/-- Python `min()` over a list; raises (`none`) on an empty sequence. -/
def listMin : List ℚ → Option ℚ
  | [] => none
  | x :: xs =>
    match listMin xs with
    | none => some x
    | some m => some (min x m)

/-- `POI` model (models/poi.py): id, name, non-nullable category id,
nullable coordinates and rating. -/
structure POI where
  id : ℕ
  name : String
  category_id : ℕ
  latitude : Option ℚ
  longitude : Option ℚ
  rating : Option ℚ
deriving Repr, DecidableEq

/-- `Property` model (models/property.py), restricted to the columns the
scoring core reads: id and the numeric attributes reachable through
`getattr` in `_eval_property_attr`, plus the nullable coordinates. -/
structure Property where
  id : ℕ
  title : String
  price : Option ℚ
  bedrooms : Option ℚ
  bathrooms : Option ℚ
  area_m2 : Option ℚ
  latitude : Option ℚ
  longitude : Option ℚ
deriving Repr, DecidableEq

/-- `getattr(prop, attr_name, None)` followed by `float(actual)` in
`_eval_property_attr`: numeric columns yield their value; a missing
attribute yields `None`, and a non-numeric column (e.g. `title`) makes
`float()` raise, which the service catches and maps to the same outcome
as a missing value, so both are `none` here. -/
def getAttr (p : Property) (name : String) : Option ℚ :=
  if name = "id" then some (p.id : ℚ)
  else if name = "price" then p.price
  else if name = "bedrooms" then p.bedrooms
  else if name = "bathrooms" then p.bathrooms
  else if name = "area_m2" then p.area_m2
  else if name = "latitude" then p.latitude
  else if name = "longitude" then p.longitude
  else none

/-- The type-specific parameter bag of a scoring rule (JSON column),
typed with the fields the evaluators read. -/
structure RuleParams where
  target_count : Option ℚ
  attr_name : Option String
  ideal : Option ℚ
  tolerance : Option ℚ
  categories : Option (List ℕ)
deriving Repr, DecidableEq

/-- The empty parameter bag (`rule.parameters or {}` with all gets missing). -/
def emptyParams : RuleParams :=
  { target_count := none, attr_name := none, ideal := none,
    tolerance := none, categories := none }

/-- `ScoringRule` model (models/scoring.py). -/
structure ScoringRule where
  id : ℕ
  rule_type : String
  poi_category_id : Option ℕ
  max_distance_m : Option ℚ
  weight : ℚ
  parameters : Option RuleParams
deriving Repr, DecidableEq

/-- `rule.parameters or {}`. -/
def paramsOf (r : ScoringRule) : RuleParams := r.parameters.getD emptyParams

/-- `PropertyPOIDistance` model (models/associations.py): a pre-computed
property→POI distance row. -/
structure PropertyPOIDistance where
  property_id : ℕ
  poi_id : ℕ
  distance_m : ℚ
deriving Repr, DecidableEq

/-- The read-only geographic catalog the scoring pass consults: the POI
table, the pre-computed distance table, and the distance oracle
(`haversine_distance`, opaque here because it is transcendental). -/
structure Catalog where
  pois : List POI
  dists : List PropertyPOIDistance
  hav : ℚ → ℚ → ℚ → ℚ → ℚ

/-- One entry of the per-rule breakdown stored with a score
(`_score_property`, lines 109–113). -/
structure BreakdownEntry where
  raw_value : ℚ
  weight : ℚ
  weighted : ℚ
deriving Repr, DecidableEq

/-- `PropertyScore` model (models/scoring.py): the materialised score row
keyed by (property, profile); the breakdown dict is kept as an
insertion-ordered association list. `computed_at` is an abstract tick. -/
structure PropertyScore where
  property_id : ℕ
  profile_id : ℕ
  total_score : ℚ
  breakdown : List (String × BreakdownEntry)
  computed_at : ℕ
deriving Repr, DecidableEq

/-- `SearchProfile` model (models/search_profile.py) with its owned rules. -/
structure SearchProfile where
  id : ℕ
  user_id : ℕ
  scoring_rules : List ScoringRule
deriving Repr, DecidableEq

/-- The database state seen by the scoring service: geographic catalog,
profile and property tables, and the score store. -/
structure DB where
  catalog : Catalog
  profiles : List SearchProfile
  properties : List Property
  scores : List PropertyScore

/-! ## POI service — `POIService.find_nearby` (poi_service.py, lines 107–134) -/

/-- One element of the list `find_nearby` returns: the POI dict plus the
added `distance_m` field (rounded to one decimal). -/
structure NearbyPOI where
  poi : POI
  distance_m : ℚ
deriving Repr, DecidableEq

/-- Whether a POI passes the (truthiness-guarded) category filter of
`find_nearby`: with no category, or category `0` (falsy in Python, hence
no filtering), every POI passes; otherwise only the exact category. -/
def matchesCat (category_id : Option ℕ) (p : POI) : Bool :=
  match category_id with
  | none => true
  | some c => c = 0 || p.category_id = c

/-- The SQL select of `find_nearby`: POIs whose coordinates are non-NULL
(the `isnot(None)` filter, which keeps a `0.0` coordinate), restricted by
category when that argument is truthy. -/
def selectPois (cat : Catalog) (category_id : Option ℕ) : List POI :=
  let present : List POI :=
    cat.pois.filter (fun p => p.latitude.isSome && p.longitude.isSome)
  match category_id with
  | some c => if c ≠ 0 then present.filter (fun p => p.category_id = c) else present
  | none => present

/-- The `results` list `find_nearby` builds before sorting: the selected
POIs within `radius_m` of the center (unrounded distance, inclusive),
carrying the rounded `distance_m` field, in table order. -/
def nearbyResults (cat : Catalog) (lat lng radius_m : ℚ) (category_id : Option ℕ) :
    List NearbyPOI :=
  ((selectPois cat category_id).filter
      (fun p => cat.hav lat lng (p.latitude.getD 0) (p.longitude.getD 0) ≤ radius_m)).map
    (fun p => ⟨p, round1 (cat.hav lat lng (p.latitude.getD 0) (p.longitude.getD 0))⟩)

/-- `POIService.find_nearby` (poi_service.py, lines 107–134): the loop
appends one entry per in-radius POI in table order and `list.sort` (a
stable sort) then orders by the rounded `distance_m`. -/
def find_nearby (cat : Catalog) (lat lng radius_m : ℚ) (category_id : Option ℕ) :
    List NearbyPOI :=
  (nearbyResults cat lat lng radius_m category_id).mergeSort
    (fun a b => a.distance_m ≤ b.distance_m)

/-! ## Scoring service — rule evaluators (scoring_service.py) -/

/-- The `p.latitude and p.longitude` guard used inside the live-distance
comprehensions: both coordinates present and nonzero. -/
def coordsTruthy (p : POI) : Bool := truthyQ p.latitude && truthyQ p.longitude

/-- The live haversine distances from a property to the truthy-coordinate
POIs of a candidate list (the generator expressions at lines 170–173,
193–197, 252–255 of scoring_service.py). -/
def liveDists (cat : Catalog) (prop : Property) (pois : List POI) : List ℚ :=
  (pois.filter coordsTruthy).map
    (fun p => cat.hav (prop.latitude.getD 0) (prop.longitude.getD 0)
      (p.latitude.getD 0) (p.longitude.getD 0))

/-- The pre-computed-distance lookup of `_eval_poi_proximity` (lines
144–155): the smallest stored distance from the property to a POI of the
requested category, `none` when no such row exists. -/
def minPrecomputed (cat : Catalog) (propId catId : ℕ) : Option ℚ :=
  listMin ((cat.dists.filter
      (fun d => d.property_id = propId &&
        cat.pois.any (fun p => p.id = d.poi_id && p.category_id = catId))).map
    (fun d => d.distance_m))

/-- `ScoringService._eval_poi_proximity` (lines 136–177).  `none` models
the `ValueError` that `min()` raises when the category has POIs but every
one of them lacks truthy coordinates. -/
def eval_poi_proximity (cat : Catalog) (rule : ScoringRule) (prop : Property) :
    Option ℚ :=
  if !truthyQ prop.latitude || !truthyQ prop.longitude ||
      !truthyN rule.poi_category_id then some 0
  else
    let catId := rule.poi_category_id.getD 0
    let maxDist := orDefault rule.max_distance_m 1000
    match minPrecomputed cat prop.id catId with
    | some d => some (if maxDist < d then 0 else max 0 (1 - d / maxDist))
    | none =>
      let pois := cat.pois.filter (fun p => p.category_id = catId)
      if pois.isEmpty then some 0
      else
        (listMin (liveDists cat prop pois)).map
          (fun d => if maxDist < d then 0 else max 0 (1 - d / maxDist))

/-- The POI count of `_eval_poi_density` (lines 193–197): POIs of the
candidate list with truthy coordinates within `radius` of the property. -/
def densityCount (cat : Catalog) (prop : Property) (pois : List POI) (radius : ℚ) : ℕ :=
  (pois.filter (fun p => coordsTruthy p &&
    cat.hav (prop.latitude.getD 0) (prop.longitude.getD 0)
      (p.latitude.getD 0) (p.longitude.getD 0) ≤ radius)).length

/-- `ScoringService._eval_poi_density` (lines 179–199).  `none` models the
`ZeroDivisionError` when the `target_count` parameter is zero. -/
def eval_poi_density (cat : Catalog) (rule : ScoringRule) (prop : Property) :
    Option ℚ :=
  if !truthyQ prop.latitude || !truthyQ prop.longitude ||
      !truthyN rule.poi_category_id then some 0
  else
    let radius := orDefault rule.max_distance_m 1000
    let target := (paramsOf rule).target_count.getD 5
    let pois := cat.pois.filter (fun p => p.category_id = rule.poi_category_id.getD 0)
    if target = 0 then none
    else some (min ((densityCount cat prop pois radius : ℚ) / target) 1)

/-- `ScoringService._eval_property_attr` (lines 201–227).  Total: every
failure path (missing attribute name, missing ideal, missing or
non-numeric attribute value) returns `0.0`. -/
def eval_property_attr (rule : ScoringRule) (prop : Property) : ℚ :=
  let ps := paramsOf rule
  match ps.attr_name, ps.ideal with
  | some a, some ideal =>
    if a = "" then 0
    else
      match getAttr prop a with
      | none => 0
      | some actual =>
        let tol := ps.tolerance.getD 0
        if tol = 0 then (if actual = ideal then 1 else 0)
        else max 0 (1 - |actual - ideal| / tol)
  | _, _ => 0

/-- `ScoringService._eval_walkability` (lines 229–258): average of the
per-category linear-decay scores.  `none` models the `ValueError` raised
on a category whose POIs all lack truthy coordinates. -/
def eval_walkability (cat : Catalog) (rule : ScoringRule) (prop : Property) :
    Option ℚ :=
  if !truthyQ prop.latitude || !truthyQ prop.longitude then some 0
  else
    let cats := (paramsOf rule).categories.getD []
    let maxDist := orDefault rule.max_distance_m 1000
    if cats.isEmpty then some 0
    else
      (cats.mapM (fun cid =>
        let pois := cat.pois.filter (fun p => p.category_id = cid)
        if pois.isEmpty then some 0
        else (listMin (liveDists cat prop pois)).map
          (fun d => max 0 (1 - d / maxDist)))).map
        (fun scores => scores.sum / (scores.length : ℚ))

/-- `ScoringService._evaluate_rule` (lines 118–134): string dispatch over
`rule_type`; unrecognised types score `0.0`. -/
def evaluate_rule (cat : Catalog) (rule : ScoringRule) (prop : Property) : Option ℚ :=
  if rule.rule_type = "poi_proximity" then eval_poi_proximity cat rule prop
  else if rule.rule_type = "poi_density" then eval_poi_density cat rule prop
  else if rule.rule_type = "property_attr" then some (eval_property_attr rule prop)
  else if rule.rule_type = "walkability" then eval_walkability cat rule prop
  else some 0

/-! ## Scoring service — aggregation and batch pass -/

/-- The breakdown key `f"rule_{rule.id}_{rule.rule_type}"`. -/
def ruleKey (r : ScoringRule) : String :=
  "rule_" ++ toString r.id ++ "_" ++ r.rule_type

/-- The accumulation loop of `ScoringService._score_property` (lines
95–116) with its `_evaluate_rule` collaborator abstracted as `eval`:
`total` and `weight_sum` are the sums the loop accumulates, the breakdown
records one entry per rule in iteration order, and the final score is
`(total / weight_sum) * 100` rounded to two decimals, or `0.0` on a
non-positive weight sum. -/
def score_property_with (eval : ScoringRule → ℚ) (rules : List ScoringRule) :
    ℚ × List (String × BreakdownEntry) :=
  let total := (rules.map (fun r => eval r * r.weight)).sum
  let weight_sum := (rules.map (fun r => r.weight)).sum
  let breakdown := rules.map
    (fun r => (ruleKey r, ⟨round3 (eval r), r.weight, round3 (eval r * r.weight)⟩))
  (if 0 < weight_sum then round2 (total / weight_sum * 100) else 0, breakdown)

/-- `ScoringService._score_property` proper: the loop instantiated with
`_evaluate_rule`; an exception from any rule evaluation propagates. -/
def score_property (cat : Catalog) (prop : Property) (rules : List ScoringRule) :
    Option (ℚ × List (String × BreakdownEntry)) :=
  match rules.mapM (fun r => evaluate_rule cat r prop) with
  | none => none
  | some _ =>
    some (score_property_with (fun r => (evaluate_rule cat r prop).getD 0) rules)

/-- The per-property loop body of `compute_scores`: score every property
of the table, producing the rows to upsert (timestamped `now`).  An
exception from any property aborts the pass before the commit, so the
whole pass yields `none`. -/
def scoreRows (cat : Catalog) (rules : List ScoringRule) (pid now : ℕ) :
    List Property → Option (List PropertyScore)
  | [] => some []
  | prop :: rest =>
    match score_property cat prop rules, scoreRows cat rules pid now rest with
    | some sb, some rows => some (⟨prop.id, pid, sb.1, sb.2, now⟩ :: rows)
    | _, _ => none

/-- The (property, profile) key test of the score store. -/
def keyMatch (s : PropertyScore) (l p : ℕ) : Bool :=
  s.property_id = l && s.profile_id = p

/-- The upsert of one score row (lines 46–65): if a row with the same
(property, profile) key exists it is updated in place, else the row is
inserted at the end of the table. -/
def upsertScore (scores : List PropertyScore) (row : PropertyScore) :
    List PropertyScore :=
  if scores.any (fun s => keyMatch s row.property_id row.profile_id)
  then scores.map (fun s =>
    if keyMatch s row.property_id row.profile_id then row else s)
  else scores ++ [row]

/-- `ScoringService.compute_scores` (lines 29–70): resolve the profile
(missing profile or empty rule set return 0 with no writes), score every
property, upsert one row per property, and return the property count.
`none` models an exception aborting the pass before its single commit,
leaving the store unchanged. -/
def compute_scores (db : DB) (profile_id now : ℕ) : Option (ℕ × DB) :=
  match db.profiles.find? (fun p => p.id = profile_id) with
  | none => some (0, db)
  | some profile =>
    if profile.scoring_rules.isEmpty then some (0, db)
    else
      match scoreRows db.catalog profile.scoring_rules profile_id now db.properties with
      | none => none
      | some rows =>
        some (db.properties.length, { db with scores := rows.foldl upsertScore db.scores })

/-- One row of the `get_ranked_properties` result: the property dict with
the score dict attached. -/
structure RankedRow where
  prop : Property
  score : PropertyScore
deriving Repr, DecidableEq

/-- The join of `get_ranked_properties`: the profile's score rows paired
with their properties, in stored row order. -/
def rankedJoin (db : DB) (profile_id : ℕ) : List RankedRow :=
  (db.scores.filter (fun s => s.profile_id = profile_id)).filterMap
    (fun s => (db.properties.find? (fun p => p.id = s.property_id)).map
      (fun p => RankedRow.mk p s))

/-- `ScoringService.get_ranked_properties` (lines 72–92): the score rows
of the profile joined with their properties, ordered by `total_score`
descending — and by nothing else; the SQL `ORDER BY` is modelled as a
stable sort over the stored row order. -/
def get_ranked_properties (db : DB) (profile_id : ℕ) : List RankedRow :=
  (rankedJoin db profile_id).mergeSort
    (fun a b => b.score.total_score ≤ a.score.total_score)

/-- The HTTP response of the compute endpoint, reduced to what the claims
observe: the status code and the returned count (absent on errors). -/
structure ComputeResponse where
  status : ℕ
  count : Option ℕ
deriving Repr, DecidableEq

/-- The `POST /scores/<profile_id>/compute` handler (api/scores.py, lines
27–38): a missing profile, or one owned by another user, yields 404
before the service ever runs; otherwise the service result is reported
with status 200. -/
def compute_scores_endpoint (db : DB) (user_id profile_id now : ℕ) :
    Option (ComputeResponse × DB) :=
  match db.profiles.find? (fun p => p.id = profile_id) with
  | none => some (⟨404, none⟩, db)
  | some profile =>
    if profile.user_id ≠ user_id then some (⟨404, none⟩, db)
    else (compute_scores db profile_id now).map (fun r => (⟨200, some r.1⟩, r.2))

/-- The nearest-POI distance the proximity rule acts on: the pre-computed
lookup first, else the live minimum over the category's POIs. -/
def nearestDistance (cat : Catalog) (prop : Property) (catId : ℕ) : Option ℚ :=
  match minPrecomputed cat prop.id catId with
  | some d => some d
  | none => listMin (liveDists cat prop (cat.pois.filter (fun p => p.category_id = catId)))

/-- The payload of a stored score row for a (property, profile) key: its
total and breakdown, without the timestamp.  `find?` reads the first
matching row, the unique one on well-formed stores. -/
def lookupScore (scores : List PropertyScore) (l p : ℕ) :
    Option (ℚ × List (String × BreakdownEntry)) :=
  (scores.find? (fun s => keyMatch s l p)).map
    (fun s => (s.total_score, s.breakdown))

/-! ## Shared lemmas -/

/-- Rounding to two decimals keeps a value of [0, 100] inside [0, 100]. -/
lemma round2_bounds {x : ℚ} (h0 : 0 ≤ x) (h1 : x ≤ 100) :
    0 ≤ round2 x ∧ round2 x ≤ 100 := by
  unfold round2
  have hfl : round (x * 100) = ⌊x * 100 + 1 / 2⌋ := round_eq (x * 100)
  constructor
  · have hnn : (0 : ℤ) ≤ ⌊x * 100 + 1 / 2⌋ := by
      rw [Int.le_floor]
      push_cast
      nlinarith
    rw [hfl]
    positivity
  · have hub : ⌊x * 100 + 1 / 2⌋ < (10001 : ℤ) := by
      rw [Int.floor_lt]
      push_cast
      nlinarith
    rw [hfl, div_le_iff₀ (by norm_num : (0 : ℚ) < 100)]
    have : (⌊x * 100 + 1 / 2⌋ : ℚ) ≤ 10000 := by
      exact_mod_cast Int.lt_add_one_iff.mp hub
    linarith

/-- `x or d` never yields zero when the fallback is nonzero. -/
lemma orDefault_ne_zero {x : Option ℚ} {d : ℚ} (hd : d ≠ 0) : orDefault x d ≠ 0 := by
  cases x with
  | none => simpa [orDefault] using hd
  | some v =>
    by_cases hv : v = 0 <;> simp [orDefault, hv, hd]

/-- Membership in the SQL select of `find_nearby`. -/
lemma mem_selectPois {cat : Catalog} {cid : Option ℕ} {p : POI} :
    p ∈ selectPois cat cid ↔
      p ∈ cat.pois ∧ p.latitude.isSome ∧ p.longitude.isSome ∧ matchesCat cid p := by
  cases cid with
  | none =>
    simp [selectPois, matchesCat, List.mem_filter, and_assoc]
  | some c =>
    by_cases hc : c = 0 <;>
      simp [selectPois, matchesCat, hc, List.mem_filter, and_assoc] <;>
      intro _ <;> tauto

/-! ## C2 — `find_nearby`: radius, ordering, inclusivity, category filter -/

/-- C2.  For every center, radius and optional category: `find_nearby`
returns only POIs with non-NULL coordinates whose (unrounded) distance to
the center is at most the radius; the result is non-decreasing in the
reported `distance_m`; every stored POI with coordinates that passes the
category filter and whose distance is at most the radius — in particular
one at distance exactly the radius — appears in the result; and under a
truthy category filter every returned POI has exactly that category. -/
theorem find_nearby_spec (cat : Catalog) (lat lng r : ℚ) (cid : Option ℕ) :
    (∀ e ∈ find_nearby cat lat lng r cid,
        e.poi ∈ cat.pois ∧ e.poi.latitude.isSome ∧ e.poi.longitude.isSome ∧
          cat.hav lat lng (e.poi.latitude.getD 0) (e.poi.longitude.getD 0) ≤ r) ∧
    List.Pairwise (fun a b => a.distance_m ≤ b.distance_m)
      (find_nearby cat lat lng r cid) ∧
    (∀ p ∈ cat.pois, p.latitude.isSome → p.longitude.isSome → matchesCat cid p →
        cat.hav lat lng (p.latitude.getD 0) (p.longitude.getD 0) ≤ r →
        (⟨p, round1 (cat.hav lat lng (p.latitude.getD 0) (p.longitude.getD 0))⟩ :
            NearbyPOI) ∈ find_nearby cat lat lng r cid) ∧
    (∀ c, cid = some c → c ≠ 0 →
        ∀ e ∈ find_nearby cat lat lng r cid, e.poi.category_id = c) := by
  have hmem : ∀ e, e ∈ find_nearby cat lat lng r cid ↔
      ∃ p, (p ∈ selectPois cat cid ∧
          cat.hav lat lng (p.latitude.getD 0) (p.longitude.getD 0) ≤ r) ∧
        (⟨p, round1 (cat.hav lat lng (p.latitude.getD 0) (p.longitude.getD 0))⟩ :
            NearbyPOI) = e := by
    intro e
    unfold find_nearby nearbyResults
    rw [List.mem_mergeSort, List.mem_map]
    constructor
    · rintro ⟨p, hp, rfl⟩
      exact ⟨p, by simpa [List.mem_filter] using hp, rfl⟩
    · rintro ⟨p, hp, rfl⟩
      exact ⟨p, by simpa [List.mem_filter] using hp, rfl⟩
  refine ⟨?_, ?_, ?_, ?_⟩
  · intro e he
    obtain ⟨p, ⟨hsel, hr⟩, rfl⟩ := (hmem e).mp he
    obtain ⟨hpois, hlat, hlng, _⟩ := mem_selectPois.mp hsel
    exact ⟨hpois, hlat, hlng, hr⟩
  · unfold find_nearby
    have hs := @List.sorted_mergeSort NearbyPOI
      (fun a b => decide (a.distance_m ≤ b.distance_m))
      (fun a b c hab hbc => decide_eq_true
        (le_trans (of_decide_eq_true hab) (of_decide_eq_true hbc)))
      (fun a b => by
        rcases le_total a.distance_m b.distance_m with h | h <;>
          simp [decide_eq_true h])
      (nearbyResults cat lat lng r cid)
    exact hs.imp (fun hab => of_decide_eq_true hab)
  · intro p hp hlat hlng hcat hr
    exact (hmem _).mpr ⟨p, ⟨mem_selectPois.mpr ⟨hp, hlat, hlng, hcat⟩, hr⟩, rfl⟩
  · rintro c rfl hc0 e he
    obtain ⟨p, ⟨hsel, _⟩, rfl⟩ := (hmem e).mp he
    obtain ⟨_, _, _, hm⟩ := mem_selectPois.mp hsel
    simpa [matchesCat, hc0] using hm

/-- A concrete stand-in distance oracle for witnesses (the real haversine
is transcendental): the distance of a point to a POI is the POI's
latitude. -/
def havW : ℚ → ℚ → ℚ → ℚ → ℚ := fun _ _ plat _ => plat

/-- Witness POI at distance 5 under `havW`, category 1. -/
def poiA : POI :=
  { id := 1, name := "a", category_id := 1, latitude := some 5,
    longitude := some 1, rating := none }

/-- Witness POI at distance 3 under `havW`, category 1. -/
def poiB : POI :=
  { id := 2, name := "b", category_id := 1, latitude := some 3,
    longitude := some 1, rating := none }

/-- Witness POI of another category. -/
def poiC : POI :=
  { id := 3, name := "c", category_id := 2, latitude := some 1,
    longitude := some 1, rating := none }

/-- Witness POI without a latitude. -/
def poiD : POI :=
  { id := 4, name := "d", category_id := 1, latitude := none,
    longitude := some 1, rating := none }

/-- Witness catalog for the proximity search. -/
def catW : Catalog := ⟨[poiA, poiB, poiC, poiD], [], havW⟩

/-- Witness for C2: `poiA` sits at distance exactly 5 from the center, the
search radius, and is returned (boundary inclusivity). -/
theorem find_nearby_spec_witness :
    (⟨poiA, round1 (catW.hav 0 0 (poiA.latitude.getD 0) (poiA.longitude.getD 0))⟩ :
        NearbyPOI) ∈ find_nearby catW 0 0 5 (some 1) :=
  (find_nearby_spec catW 0 0 5 (some 1)).2.2.1 poiA (by decide) (by decide)
    (by decide) (by decide) (by decide)

/-! ## C3 — proximity rule: linear decay on the nearest distance -/

/-- With no POI of the category in the catalog the pre-computed lookup is
empty (its join requires a POI of the category). -/
lemma minPrecomputed_none_of_no_poi {cat : Catalog} {propId catId : ℕ}
    (h : cat.pois.filter (fun p => p.category_id = catId) = []) :
    minPrecomputed cat propId catId = none := by
  unfold minPrecomputed
  have hf : (cat.dists.filter (fun d => d.property_id = propId &&
      cat.pois.any (fun p => p.id = d.poi_id && p.category_id = catId))) = [] := by
    rw [List.filter_eq_nil_iff]
    intro d _
    simp only [Bool.and_eq_true, decide_eq_true_eq, List.any_eq_true, not_and]
    rintro _ ⟨p, hp, hpd, hpc⟩
    have : p ∈ cat.pois.filter (fun p => p.category_id = catId) :=
      List.mem_filter.mpr ⟨hp, by simpa using hpc⟩
    rw [h] at this
    exact absurd this (List.not_mem_nil p)
  rw [hf]
  rfl

/-- Workhorse for C3: under truthy coordinates and category, whenever the
nearest distance (pre-computed first, else live) is `d`, the proximity
rule scores `0` beyond the effective radius and `max 0 (1 - d/M)` within
it. -/
lemma eval_poi_proximity_of_nearest {cat : Catalog} {rule : ScoringRule}
    {prop : Property} (hlat : truthyQ prop.latitude = true)
    (hlng : truthyQ prop.longitude = true)
    (hcat : truthyN rule.poi_category_id = true) {d : ℚ}
    (hd : nearestDistance cat prop (rule.poi_category_id.getD 0) = some d) :
    eval_poi_proximity cat rule prop =
      some (if orDefault rule.max_distance_m 1000 < d then 0
            else max 0 (1 - d / orDefault rule.max_distance_m 1000)) := by
  unfold nearestDistance at hd
  unfold eval_poi_proximity
  simp only [hlat, hlng, hcat, Bool.not_true, Bool.or_self, Bool.or_false,
    Bool.false_or, if_false]
  cases hmp : minPrecomputed cat prop.id (rule.poi_category_id.getD 0) with
  | some d0 =>
    rw [hmp] at hd
    have hd2 : (some d0 : Option ℚ) = some d := hd
    injection hd2 with hdd
    subst hdd
    rfl
  | none =>
    rw [hmp] at hd
    have hd2 : listMin (liveDists cat prop (cat.pois.filter
        (fun p => p.category_id = rule.poi_category_id.getD 0))) = some d := hd
    by_cases hpe :
        (cat.pois.filter
          (fun p => p.category_id = rule.poi_category_id.getD 0)).isEmpty
    · rw [List.isEmpty_iff] at hpe
      rw [hpe] at hd2
      simp [liveDists, listMin] at hd2
    · simp only [hmp, hpe, if_false, Bool.false_eq_true]
      rw [hd2]
      rfl

/-- C3.  For a listing with truthy coordinates and a proximity rule with a
truthy category, with `M` the effective max distance (`max_distance_m`,
falling back to 1000 when absent): if the nearest POI of the category is
at distance `d` then the raw value is `max 0 (1 - d/M)` when `d ≤ M` and
`0.0` when `M < d`; it is `0.0` when no POI of the category exists; and in
particular distance `0` scores `1.0` and distance `M` scores `0.0`. -/
theorem eval_poi_proximity_spec (cat : Catalog) (rule : ScoringRule)
    (prop : Property) (hlat : truthyQ prop.latitude = true)
    (hlng : truthyQ prop.longitude = true)
    (hcat : truthyN rule.poi_category_id = true) :
    (∀ d, nearestDistance cat prop (rule.poi_category_id.getD 0) = some d →
        (d ≤ orDefault rule.max_distance_m 1000 →
          eval_poi_proximity cat rule prop =
            some (max 0 (1 - d / orDefault rule.max_distance_m 1000))) ∧
        (orDefault rule.max_distance_m 1000 < d →
          eval_poi_proximity cat rule prop = some 0)) ∧
    (cat.pois.filter (fun p => p.category_id = rule.poi_category_id.getD 0) = [] →
        eval_poi_proximity cat rule prop = some 0) ∧
    (0 ≤ orDefault rule.max_distance_m 1000 →
        nearestDistance cat prop (rule.poi_category_id.getD 0) = some 0 →
        eval_poi_proximity cat rule prop = some 1) ∧
    (nearestDistance cat prop (rule.poi_category_id.getD 0) =
          some (orDefault rule.max_distance_m 1000) →
        eval_poi_proximity cat rule prop = some 0) := by
  have hM0 : orDefault rule.max_distance_m 1000 ≠ 0 :=
    orDefault_ne_zero (by norm_num)
  refine ⟨?_, ?_, ?_, ?_⟩
  · intro d hd
    constructor
    · intro hle
      rw [eval_poi_proximity_of_nearest hlat hlng hcat hd,
        if_neg (not_lt.mpr hle)]
    · intro hgt
      rw [eval_poi_proximity_of_nearest hlat hlng hcat hd, if_pos hgt]
  · intro hempty
    unfold eval_poi_proximity
    simp only [hlat, hlng, hcat, Bool.not_true, Bool.or_self, Bool.or_false,
      Bool.false_or, if_false]
    rw [minPrecomputed_none_of_no_poi hempty, hempty]
    rfl
  · intro hMnn hd
    rw [eval_poi_proximity_of_nearest hlat hlng hcat hd,
      if_neg (not_lt.mpr hMnn)]
    norm_num
  · intro hd
    rw [eval_poi_proximity_of_nearest hlat hlng hcat hd, if_neg (lt_irrefl _)]
    rw [div_self hM0]
    norm_num

/-- Witness catalog for C3: one metro POI of category 1 and a pre-computed
distance of 400 m from property 1 to it. -/
def catP : Catalog :=
  ⟨[{ id := 1, name := "metro", category_id := 1, latitude := some 1,
      longitude := some 1, rating := none }],
   [⟨1, 1, 400⟩], havW⟩

/-- Witness proximity rule: category 1, max distance 1000 m. -/
def ruleP : ScoringRule :=
  { id := 1, rule_type := "poi_proximity", poi_category_id := some 1,
    max_distance_m := some 1000, weight := 1, parameters := none }

/-- Witness property with truthy coordinates. -/
def propP : Property :=
  { id := 1, title := "L", price := none, bedrooms := none, bathrooms := none,
    area_m2 := none, latitude := some 41, longitude := some 2 }

/-- Witness for C3: nearest distance 400 within the 1000 m radius. -/
theorem eval_poi_proximity_spec_witness :
    eval_poi_proximity catP ruleP propP =
      some (max 0 (1 - 400 / orDefault ruleP.max_distance_m 1000)) :=
  (((eval_poi_proximity_spec catP ruleP propP (by decide) (by decide)
      (by decide)).1 400 (by decide)).1 (by decide))

/-! ## C1 — aggregation formula, breakdown keys, and the [0, 100] bound -/

/-- C1.  For every listing (represented by the evaluator `eval` that
`_score_property` consults once per rule) and every non-empty rule list:
the aggregated score equals `round((Σ raw·weight / Σ weight) · 100, 2)`
when the weight sum is positive and `0.0` otherwise; the breakdown is
keyed by rule identity (`rule_{id}_{rule_type}`, one key per rule, in
order); and whenever every raw value lies in [0, 1] and every weight in
[0, 1] with positive sum, the total lies in [0, 100]. -/
theorem score_property_aggregation (eval : ScoringRule → ℚ)
    (rules : List ScoringRule) (_hne : rules ≠ []) :
    (score_property_with eval rules).1 =
      (if 0 < (rules.map (fun r => r.weight)).sum
       then round2 ((rules.map (fun r => eval r * r.weight)).sum /
         (rules.map (fun r => r.weight)).sum * 100)
       else 0) ∧
    (score_property_with eval rules).2.map Prod.fst = rules.map ruleKey ∧
    ((∀ r ∈ rules, 0 ≤ eval r ∧ eval r ≤ 1 ∧ 0 ≤ r.weight ∧ r.weight ≤ 1) →
      0 < (rules.map (fun r => r.weight)).sum →
      0 ≤ (score_property_with eval rules).1 ∧
        (score_property_with eval rules).1 ≤ 100) := by
  refine ⟨rfl, ?_, ?_⟩
  · simp [score_property_with, List.map_map, Function.comp_def]
  · intro hb hw
    have hT0 : 0 ≤ (rules.map (fun r => eval r * r.weight)).sum := by
      apply List.sum_nonneg
      intro x hx
      obtain ⟨r, hr, hxr⟩ := List.mem_map.mp hx
      have := hb r hr
      subst hxr
      exact mul_nonneg this.1 this.2.2.1
    have hTW : (rules.map (fun r => eval r * r.weight)).sum ≤
        (rules.map (fun r => r.weight)).sum := by
      apply List.sum_le_sum
      intro r hr
      have h := hb r hr
      calc eval r * r.weight ≤ 1 * r.weight :=
            mul_le_mul_of_nonneg_right h.2.1 h.2.2.1
        _ = r.weight := one_mul _
    have hq0 : 0 ≤ (rules.map (fun r => eval r * r.weight)).sum /
        (rules.map (fun r => r.weight)).sum * 100 := by positivity
    have hq1 : (rules.map (fun r => eval r * r.weight)).sum /
        (rules.map (fun r => r.weight)).sum * 100 ≤ 100 := by
      have h1 : (rules.map (fun r => eval r * r.weight)).sum /
          (rules.map (fun r => r.weight)).sum ≤ 1 := (div_le_one hw).mpr hTW
      linarith
    have hr2 := round2_bounds hq0 hq1
    have hsc : (score_property_with eval rules).1 =
        round2 ((rules.map (fun r => eval r * r.weight)).sum /
          (rules.map (fun r => r.weight)).sum * 100) := by
      simp only [score_property_with, if_pos hw]
    rw [hsc]
    exact hr2

/-- A concrete rule for witnesses: proximity type, weight 1. -/
def ruleC1 : ScoringRule :=
  { id := 1, rule_type := "poi_proximity", poi_category_id := none,
    max_distance_m := none, weight := 1, parameters := none }

/-- A concrete evaluator for witnesses: every rule scores 1/2. -/
def evalHalf : ScoringRule → ℚ := fun _ => 1 / 2

/-- Witness for C1 at a concrete rule list and evaluator. -/
theorem score_property_aggregation_witness :
    0 ≤ (score_property_with evalHalf [ruleC1]).1 ∧
      (score_property_with evalHalf [ruleC1]).1 ≤ 100 :=
  (score_property_aggregation evalHalf [ruleC1] (by simp)).2.2
    (by
      intro r hr
      rw [List.mem_singleton] at hr
      subst hr
      refine ⟨by norm_num [evalHalf], by norm_num [evalHalf], ?_, ?_⟩ <;>
        norm_num [ruleC1])
    (by norm_num [ruleC1])

/-! ## C4 — range violation: a rule evaluation can leave [0, 1] -/

/-- An empty catalog with a trivial distance oracle. -/
def catEmpty : Catalog := ⟨[], [], fun _ _ _ _ => 0⟩

/-- A property with 5 bedrooms (and no coordinates). -/
def propC4 : Property :=
  { id := 1, title := "t", price := none, bedrooms := some 5, bathrooms := none,
    area_m2 := none, latitude := none, longitude := none }

/-- An attribute rule with a negative tolerance: `ideal` 0, `tolerance` -1
on the `bedrooms` column. -/
def ruleC4 : ScoringRule :=
  { id := 1, rule_type := "property_attr", poi_category_id := none,
    max_distance_m := none, weight := 1,
    parameters := some { target_count := none, attr_name := some "bedrooms",
                         ideal := some 0, tolerance := some (-1),
                         categories := none } }

/-- C4 (failing input).  `_evaluate_rule` documents a return value between
0.0 and 1.0, but on a `property_attr` rule with tolerance -1 and a
bedroom count of 5 it returns `max(0, 1 - |5 - 0| / (-1)) = 6.0`, outside
[0, 1]. -/
theorem evaluate_rule_range_violation :
    evaluate_rule catEmpty ruleC4 propC4 = some 6 ∧ ¬ ((6 : ℚ) ≤ 1) := by
  constructor
  · simp [evaluate_rule, eval_property_attr, paramsOf, ruleC4, propC4, getAttr,
      emptyParams]
    rw [max_eq_right (by norm_num : (0 : ℚ) ≤ 1 - 5 / -1)]
    norm_num
  · norm_num

/-! ## C5 — totality violation: scoring can raise on coordinate-less POIs -/

/-- A catalog whose single category-1 POI has no coordinates and with no
pre-computed distances. -/
def catC5 : Catalog :=
  ⟨[{ id := 1, name := "m", category_id := 1, latitude := none,
      longitude := none, rating := none }],
   [], fun _ _ _ _ => 0⟩

/-- A property with truthy coordinates. -/
def propC5 : Property :=
  { id := 1, title := "L", price := none, bedrooms := none, bathrooms := none,
    area_m2 := none, latitude := some 41, longitude := some 2 }

/-- A proximity rule on category 1. -/
def ruleC5 : ScoringRule :=
  { id := 1, rule_type := "poi_proximity", poi_category_id := some 1,
    max_distance_m := some 1000, weight := 1, parameters := none }

/-- A database triggering the exception: profile 1 carries `ruleC5` and
the catalog is `catC5`. -/
def dbC5 : DB :=
  { catalog := catC5, profiles := [⟨1, 1, [ruleC5]⟩], properties := [propC5],
    scores := [] }

/-- C5 (failing input).  With a category whose POIs all lack coordinates
and no pre-computed distance, `_eval_poi_proximity` reaches
`min()` over an empty generator, which raises `ValueError` (`none`); the
exception propagates through `_score_property` and aborts the whole
`compute_scores` pass. -/
theorem scoring_raises_on_coordless_pois :
    eval_poi_proximity catC5 ruleC5 propC5 = none ∧
    score_property catC5 propC5 [ruleC5] = none ∧
    compute_scores dbC5 1 0 = none :=
  ⟨by decide, rfl, rfl⟩

/-! ## C6 — ranking order: descending by score, but no id tie-break -/

/-- A property with id 1 and no other data. -/
def prop1 : Property :=
  { id := 1, title := "p1", price := none, bedrooms := none, bathrooms := none,
    area_m2 := none, latitude := none, longitude := none }

/-- A property with id 2 and no other data. -/
def prop2 : Property :=
  { id := 2, title := "p2", price := none, bedrooms := none, bathrooms := none,
    area_m2 := none, latitude := none, longitude := none }

/-- A store holding two equal-score rows for profile 1, the row of
property 2 stored first (as a compute pass that visited property 2 first
would leave it). -/
def dbC6 : DB :=
  { catalog := catEmpty, profiles := [], properties := [prop1, prop2],
    scores := [⟨2, 1, 50, [], 0⟩, ⟨1, 1, 50, [], 0⟩] }

/-- C6 (counterexample).  On two rows with equal `total_score`,
`get_ranked_properties` keeps the store order — here property 2 before
property 1 — so equal-score rows are *not* ordered by listing identity
ascending; the query orders by `total_score` only. -/
theorem get_ranked_properties_no_tiebreak :
    (get_ranked_properties dbC6 1).map (fun e => e.prop.id) = [2, 1] ∧
    (get_ranked_properties dbC6 1).map (fun e => e.score.total_score) = [50, 50] := by
  have hj : rankedJoin dbC6 1 =
      [⟨prop2, ⟨2, 1, 50, [], 0⟩⟩, ⟨prop1, ⟨1, 1, 50, [], 0⟩⟩] := by decide
  have hs : get_ranked_properties dbC6 1 =
      [⟨prop2, ⟨2, 1, 50, [], 0⟩⟩, ⟨prop1, ⟨1, 1, 50, [], 0⟩⟩] := by
    unfold get_ranked_properties
    rw [hj]
    exact List.mergeSort_of_sorted (by decide)
  rw [hs]
  exact ⟨rfl, rfl⟩

/-- C6 (amended).  `get_ranked_properties` returns exactly the
materialized rows of the profile joined with their listings, sorted
non-increasingly by `total_score`; equal-score rows keep the store's
order — there is no tie-break by listing id. -/
theorem get_ranked_properties_sorted_desc (db : DB) (pid : ℕ) :
    List.Pairwise (fun a b => b.score.total_score ≤ a.score.total_score)
      (get_ranked_properties db pid) ∧
    (get_ranked_properties db pid).Perm (rankedJoin db pid) ∧
    ∀ e ∈ get_ranked_properties db pid,
      e.score ∈ db.scores ∧ e.score.profile_id = pid ∧
        e.prop ∈ db.properties ∧ e.prop.id = e.score.property_id := by
  refine ⟨?_, ?_, ?_⟩
  · have hs := @List.sorted_mergeSort RankedRow
      (fun a b => decide (b.score.total_score ≤ a.score.total_score))
      (fun a b c hab hbc => decide_eq_true
        (le_trans (of_decide_eq_true hbc) (of_decide_eq_true hab)))
      (fun a b => by
        rcases le_total b.score.total_score a.score.total_score with h | h <;>
          simp [decide_eq_true h])
      (rankedJoin db pid)
    exact hs.imp (fun hab => of_decide_eq_true hab)
  · exact List.mergeSort_perm (rankedJoin db pid) _
  · intro e he
    rw [get_ranked_properties, List.mem_mergeSort] at he
    obtain ⟨s, hs, he⟩ := List.mem_filterMap.mp he
    obtain ⟨hsmem, hspid⟩ := List.mem_filter.mp hs
    obtain ⟨p, hfind, hpe⟩ := Option.map_eq_some'.mp he
    subst hpe
    refine ⟨hsmem, by simpa using hspid, List.mem_of_find?_eq_some hfind, ?_⟩
    have := List.find?_some hfind
    simpa using this

/-! ## C7 — a profile with zero rules: return 0, store untouched -/

/-- C7.  When the profile exists but has zero rules, `compute_scores`
returns 0 immediately and the database — in particular the score store —
is returned completely unchanged. -/
theorem compute_scores_empty_rules (db : DB) (pid now : ℕ)
    (prof : SearchProfile)
    (hfind : db.profiles.find? (fun p => p.id = pid) = some prof)
    (hrules : prof.scoring_rules = []) :
    compute_scores db pid now = some (0, db) := by
  obtain ⟨i, u, rs⟩ := prof
  have hrs : rs = [] := hrules
  subst hrs
  unfold compute_scores
  rw [hfind]
  rfl

/-- Witness profile with zero rules. -/
def prof7 : SearchProfile := ⟨1, 1, []⟩

/-- Witness database for C7, with a pre-existing score row that must
survive untouched. -/
def db7 : DB :=
  { catalog := catEmpty, profiles := [prof7], properties := [prop1],
    scores := [⟨5, 5, 1, [], 0⟩] }

/-- Witness for C7 at a concrete database. -/
theorem compute_scores_empty_rules_witness :
    compute_scores db7 1 3 = some (0, db7) :=
  compute_scores_empty_rules db7 1 3 prof7 (by decide) rfl

/-! ## C9 — unknown profile id: 404 surfaced by the compute endpoint -/

/-- C9.  When no stored profile has the requested id, the compute
endpoint responds 404 with no count — distinguishable from every
successful (200) response — and returns the database unchanged, aborting
only this operation.  (`ScoringService.compute_scores` itself returns 0
in this case; the 404 is produced by the route handler before the
service runs.) -/
theorem compute_scores_endpoint_not_found (db : DB) (u pid now : ℕ)
    (h : ∀ p ∈ db.profiles, p.id ≠ pid) :
    compute_scores_endpoint db u pid now = some (⟨404, none⟩, db) ∧
    ∀ n : ℕ, (⟨404, none⟩ : ComputeResponse) ≠ ⟨200, some n⟩ := by
  have hf : db.profiles.find? (fun p => p.id = pid) = none :=
    List.find?_eq_none.mpr (fun p hp => by simpa using h p hp)
  constructor
  · unfold compute_scores_endpoint
    rw [hf]
  · intro n hn
    have := congrArg ComputeResponse.status hn
    simp at this

/-- Witness for C9: database `db7` holds only profile 1, so id 2 is
unknown. -/
theorem compute_scores_endpoint_not_found_witness :
    compute_scores_endpoint db7 9 2 0 = some (⟨404, none⟩, db7) ∧
    ∀ n : ℕ, (⟨404, none⟩ : ComputeResponse) ≠ ⟨200, some n⟩ :=
  compute_scores_endpoint_not_found db7 9 2 0 (by decide)

/-! ## C10 — zero coordinates are treated exactly like absent ones -/

/-- C10.  A listing whose latitude or longitude is exactly `0.0` (a valid
coordinate on the equator or prime meridian) makes every location-based
rule evaluate to `0.0`, identically to a listing with no coordinate at
all; and a POI with a zero coordinate is skipped by the live distance
computation and by the density count, contributing nothing. -/
theorem zero_coordinate_like_missing (cat : Catalog) (rule : ScoringRule)
    (prop : Property) (h : prop.latitude = some 0 ∨ prop.longitude = some 0) :
    eval_poi_proximity cat rule prop = some 0 ∧
    eval_poi_density cat rule prop = some 0 ∧
    eval_walkability cat rule prop = some 0 ∧
    eval_poi_proximity cat rule prop =
      eval_poi_proximity cat rule
        { prop with latitude := none, longitude := none } ∧
    eval_poi_density cat rule prop =
      eval_poi_density cat rule
        { prop with latitude := none, longitude := none } ∧
    eval_walkability cat rule prop =
      eval_walkability cat rule
        { prop with latitude := none, longitude := none } ∧
    (∀ (q : Property) (pz : POI) (pois : List POI),
        pz.latitude = some 0 ∨ pz.longitude = some 0 →
        liveDists cat q (pois ++ [pz]) = liveDists cat q pois ∧
        ∀ radius, densityCount cat q (pois ++ [pz]) radius =
          densityCount cat q pois radius) := by
  have hguard : truthyQ prop.latitude = false ∨ truthyQ prop.longitude = false := by
    rcases h with h | h
    · left
      rw [h]
      simp [truthyQ]
    · right
      rw [h]
      simp [truthyQ]
  have hprox : eval_poi_proximity cat rule prop = some 0 := by
    rcases hguard with hg | hg <;> simp [eval_poi_proximity, hg]
  have hdens : eval_poi_density cat rule prop = some 0 := by
    rcases hguard with hg | hg <;> simp [eval_poi_density, hg]
  have hwalk : eval_walkability cat rule prop = some 0 := by
    rcases hguard with hg | hg <;> simp [eval_walkability, hg]
  have hproxn : eval_poi_proximity cat rule
      { prop with latitude := none, longitude := none } = some 0 := by
    simp [eval_poi_proximity, truthyQ]
  have hdensn : eval_poi_density cat rule
      { prop with latitude := none, longitude := none } = some 0 := by
    simp [eval_poi_density, truthyQ]
  have hwalkn : eval_walkability cat rule
      { prop with latitude := none, longitude := none } = some 0 := by
    simp [eval_walkability, truthyQ]
  refine ⟨hprox, hdens, hwalk, hprox.trans hproxn.symm, hdens.trans hdensn.symm,
    hwalk.trans hwalkn.symm, ?_⟩
  intro q pz pois hz
  have hzc : coordsTruthy pz = false := by
    rcases hz with hz | hz <;>
      simp [coordsTruthy, hz, truthyQ]
  constructor
  · simp [liveDists, List.filter_append, hzc]
  · intro radius
    simp [densityCount, List.filter_append, hzc]

/-- Witness property for C10: latitude exactly 0, longitude 2. -/
def propZ : Property :=
  { id := 7, title := "eq", price := none, bedrooms := none, bathrooms := none,
    area_m2 := none, latitude := some 0, longitude := some 2 }

/-- Witness for C10 at a concrete catalog, rule and property. -/
theorem zero_coordinate_like_missing_witness :
    eval_poi_proximity catP ruleP propZ = some 0 :=
  (zero_coordinate_like_missing catP ruleP propZ (Or.inl rfl)).1

/-! ## C8 — idempotence of the batch compute pass -/

/-- A score row with its timestamp replaced. -/
def setTime (t : ℕ) (r : PropertyScore) : PropertyScore :=
  { r with computed_at := t }

/-- The last row of a list carrying a given (property, profile) key. -/
def findLast : List PropertyScore → ℕ → ℕ → Option PropertyScore
  | [], _, _ => none
  | r :: rows, l, p =>
    match findLast rows l p with
    | some x => some x
    | none => if keyMatch r l p then some r else none

/-- `keyMatch` in propositional form. -/
lemma keyMatch_iff {s : PropertyScore} {l p : ℕ} :
    keyMatch s l p = true ↔ s.property_id = l ∧ s.profile_id = p := by
  simp [keyMatch]

/-- Two rows with the same key match the same lookups. -/
lemma keyMatch_congr {s r : PropertyScore}
    (hs : keyMatch s r.property_id r.profile_id = true) (l p : ℕ) :
    keyMatch s l p = keyMatch r l p := by
  obtain ⟨h1, h2⟩ := keyMatch_iff.mp hs
  simp [keyMatch, h1, h2]

/-- `find?` over the in-place update that the upsert performs. -/
lemma find?_map_upsert (r : PropertyScore) (l p : ℕ) :
    ∀ S : List PropertyScore,
      (S.map (fun s =>
          if keyMatch s r.property_id r.profile_id then r else s)).find?
          (fun s => keyMatch s l p) =
        if keyMatch r l p
        then (S.find? (fun s => keyMatch s r.property_id r.profile_id)).map
          (fun _ => r)
        else S.find? (fun s => keyMatch s l p)
  | [] => by cases hk : keyMatch r l p <;> simp [hk]
  | s :: S => by
    have ih := find?_map_upsert r l p S
    by_cases hs : keyMatch s r.property_id r.profile_id = true
    · have hsl : keyMatch s l p = keyMatch r l p := keyMatch_congr hs l p
      cases hk : keyMatch r l p with
      | true =>
        rw [hk] at hsl
        simp [List.find?_cons, hs, hk, hsl, ih]
      | false =>
        rw [hk] at hsl
        simp [List.find?_cons, hs, hk, hsl, ih]
    · have hsb : keyMatch s r.property_id r.profile_id = false :=
        Bool.not_eq_true _ |>.mp hs
      cases hsl : keyMatch s l p with
      | true =>
        cases hk : keyMatch r l p with
        | true =>
          exfalso
          apply hs
          obtain ⟨h1, h2⟩ := keyMatch_iff.mp hsl
          obtain ⟨h3, h4⟩ := keyMatch_iff.mp hk
          exact keyMatch_iff.mpr ⟨h1.trans h3.symm, h2.trans h4.symm⟩
        | false =>
          simp [List.find?_cons, hsb, hsl, hk]
      | false =>
        cases hk : keyMatch r l p with
        | true => simp [List.find?_cons, hsb, hsl, hk, ih]
        | false => simp [List.find?_cons, hsb, hsl, hk, ih]

/-- Lookup after one upsert: the upserted key now holds the new payload;
every other key is untouched. -/
lemma lookupScore_upsert (S : List PropertyScore) (r : PropertyScore) (l p : ℕ) :
    lookupScore (upsertScore S r) l p =
      if keyMatch r l p then some (r.total_score, r.breakdown)
      else lookupScore S l p := by
  unfold upsertScore lookupScore
  by_cases hany : S.any (fun s => keyMatch s r.property_id r.profile_id) = true
  · rw [if_pos hany, find?_map_upsert]
    cases hk : keyMatch r l p with
    | true =>
      cases hz : S.find? (fun s => keyMatch s r.property_id r.profile_id) with
      | none =>
        exfalso
        obtain ⟨y, hy, hyk⟩ := List.any_eq_true.mp hany
        exact absurd hyk (List.find?_eq_none.mp hz y hy)
      | some z => simp [hz]
    | false => simp
  · rw [if_neg hany, List.find?_append]
    cases hk : keyMatch r l p with
    | true =>
      have hfS : S.find? (fun s => keyMatch s l p) = none := by
        rw [List.find?_eq_none]
        intro x hx hxk
        apply hany
        obtain ⟨hl, hp⟩ := keyMatch_iff.mp hk
        obtain ⟨hxl, hxp⟩ := keyMatch_iff.mp hxk
        exact List.any_eq_true.mpr
          ⟨x, hx, keyMatch_iff.mpr ⟨hxl.trans hl.symm, hxp.trans hp.symm⟩⟩
      simp [hfS, List.find?_cons, hk]
    | false =>
      simp [List.find?_cons, hk]

/-- Lookup after folding a row list into the store: the last upserted row
of the key wins; keys not in the list read from the original store. -/
lemma lookupScore_foldl :
    ∀ (rows S : List PropertyScore) (l p : ℕ),
      lookupScore (rows.foldl upsertScore S) l p =
        match findLast rows l p with
        | some x => some (x.total_score, x.breakdown)
        | none => lookupScore S l p
  | [], _, _, _ => rfl
  | r :: rows, S, l, p => by
    rw [List.foldl_cons, lookupScore_foldl rows (upsertScore S r) l p]
    cases hfl : findLast rows l p with
    | some x => simp [findLast, hfl]
    | none =>
      simp only [findLast, hfl]
      rw [lookupScore_upsert]
      cases hk : keyMatch r l p with
      | true => simp [hk]
      | false => simp [hk]

/-- Retimestamping rows moves through `findLast`. -/
lemma findLast_map_setTime (t : ℕ) :
    ∀ (rows : List PropertyScore) (l p : ℕ),
      findLast (rows.map (setTime t)) l p = (findLast rows l p).map (setTime t)
  | [], _, _ => rfl
  | r :: rows, l, p => by
    simp only [List.map_cons, findLast, findLast_map_setTime t rows l p]
    cases hfl : findLast rows l p with
    | some x => rfl
    | none =>
      have hkt : keyMatch (setTime t r) l p = keyMatch r l p := rfl
      rw [hkt]
      cases hk : keyMatch r l p with
      | true => rfl
      | false => rfl

/-- The rows a pass at time `t2` would produce are the rows of a pass at
time `t1` with only the timestamp changed (the catalog is read-only). -/
lemma scoreRows_setTime (cat : Catalog) (rules : List ScoringRule)
    (pid t1 t2 : ℕ) :
    ∀ props : List Property,
      scoreRows cat rules pid t2 props =
        (scoreRows cat rules pid t1 props).map
          (fun rows => rows.map (setTime t2))
  | [] => rfl
  | prop :: rest => by
    simp only [scoreRows, scoreRows_setTime cat rules pid t1 t2 rest]
    cases h : score_property cat prop rules with
    | none => rfl
    | some sb =>
      cases hr : scoreRows cat rules pid t1 rest with
      | none => rfl
      | some rows => rfl

/-- `compute_scores` once the profile is resolved. -/
lemma compute_scores_found (db : DB) (pid now : ℕ) (prof : SearchProfile)
    (hf : db.profiles.find? (fun p => p.id = pid) = some prof) :
    compute_scores db pid now =
      (if prof.scoring_rules.isEmpty then some (0, db)
       else match scoreRows db.catalog prof.scoring_rules pid now db.properties with
         | none => none
         | some rows => some (db.properties.length,
             { db with scores := rows.foldl upsertScore db.scores })) := by
  unfold compute_scores
  rw [hf]

/-- C8.  `compute_scores` is idempotent: if a pass at time `t1` succeeds,
a second pass at time `t2` on the resulting state also succeeds, scores
the same number of properties, and leaves, for every (listing, profile)
key, a row with the same `total_score` and the same breakdown — only
`computed_at` differs. -/
theorem compute_scores_idempotent (db : DB) (pid t1 t2 c1 : ℕ) (db1 : DB)
    (h1 : compute_scores db pid t1 = some (c1, db1)) :
    ∃ c2 db2, compute_scores db1 pid t2 = some (c2, db2) ∧ c2 = c1 ∧
      ∀ l p, lookupScore db2.scores l p = lookupScore db1.scores l p := by
  cases hf : db.profiles.find? (fun p => p.id = pid) with
  | none =>
    unfold compute_scores at h1
    rw [hf] at h1
    have h1e : (0, db) = (c1, db1) := Option.some.inj h1
    have hc : c1 = 0 := (congrArg Prod.fst h1e).symm
    have hdb : db1 = db := (congrArg Prod.snd h1e).symm
    subst hc
    refine ⟨0, db1, ?_, rfl, fun l p => rfl⟩
    rw [hdb]
    unfold compute_scores
    rw [hf]
  | some prof =>
    have h1b := (compute_scores_found db pid t1 prof hf).symm.trans h1
    by_cases hre : prof.scoring_rules.isEmpty
    · rw [if_pos hre] at h1b
      have h1e : (0, db) = (c1, db1) := Option.some.inj h1b
      have hc : c1 = 0 := (congrArg Prod.fst h1e).symm
      have hdb : db1 = db := (congrArg Prod.snd h1e).symm
      subst hc
      refine ⟨0, db1, ?_, rfl, fun l p => rfl⟩
      rw [hdb, compute_scores_found db pid t2 prof hf, if_pos hre]
    · rw [if_neg hre] at h1b
      cases hsr : scoreRows db.catalog prof.scoring_rules pid t1 db.properties with
      | none =>
        rw [hsr] at h1b
        have h1c : (none : Option (ℕ × DB)) = some (c1, db1) := h1b
        exact absurd h1c (by simp)
      | some rows =>
        rw [hsr] at h1b
        have h1c : (some (db.properties.length,
            ({ db with scores := rows.foldl upsertScore db.scores } : DB)) :
            Option (ℕ × DB)) = some (c1, db1) := h1b
        have h1e : (db.properties.length,
            ({ db with scores := rows.foldl upsertScore db.scores } : DB)) =
            (c1, db1) := Option.some.inj h1c
        have hc : c1 = db.properties.length := (congrArg Prod.fst h1e).symm
        have hdb : db1 =
            { db with scores := rows.foldl upsertScore db.scores } :=
          (congrArg Prod.snd h1e).symm
        subst hc
        subst hdb
        have hf2 : ({ db with scores := rows.foldl upsertScore db.scores } :
            DB).profiles.find? (fun p => p.id = pid) = some prof := hf
        have hrun2 := compute_scores_found
          { db with scores := rows.foldl upsertScore db.scores } pid t2 prof hf2
        rw [if_neg hre] at hrun2
        have hsr2 : scoreRows
            ({ db with scores := rows.foldl upsertScore db.scores } : DB).catalog
            prof.scoring_rules pid t2
            ({ db with scores := rows.foldl upsertScore db.scores } :
              DB).properties = some (rows.map (setTime t2)) := by
          show scoreRows db.catalog prof.scoring_rules pid t2 db.properties = _
          rw [scoreRows_setTime db.catalog prof.scoring_rules pid t1 t2
            db.properties, hsr]
          rfl
        rw [hsr2] at hrun2
        refine ⟨db.properties.length, _, hrun2, rfl, ?_⟩
        intro l p
        show lookupScore ((rows.map (setTime t2)).foldl upsertScore
            (rows.foldl upsertScore db.scores)) l p =
          lookupScore (rows.foldl upsertScore db.scores) l p
        rw [lookupScore_foldl (rows.map (setTime t2))
            (rows.foldl upsertScore db.scores) l p]
        rw [findLast_map_setTime t2 rows l p]
        rw [lookupScore_foldl rows db.scores l p]
        cases hfl : findLast rows l p with
        | some x => rfl
        | none => rfl

/-- Witness rule for C8: exact bedroom match, weight 1. -/
def ruleW : ScoringRule :=
  { id := 1, rule_type := "property_attr", poi_category_id := none,
    max_distance_m := none, weight := 1,
    parameters := some { target_count := none, attr_name := some "bedrooms",
                         ideal := some 3, tolerance := some 0,
                         categories := none } }

/-- Witness property for C8 with exactly 3 bedrooms. -/
def propW : Property :=
  { id := 1, title := "L", price := none, bedrooms := some 3, bathrooms := none,
    area_m2 := none, latitude := none, longitude := none }

/-- Witness profile for C8 carrying `ruleW`. -/
def profW : SearchProfile := ⟨1, 1, [ruleW]⟩

/-- Witness database for C8, before any scoring pass. -/
def dbW : DB :=
  { catalog := catEmpty, profiles := [profW], properties := [propW],
    scores := [] }

/-- The score row the first pass over `dbW` materialises. -/
def rowW : PropertyScore :=
  ⟨1, 1, 100, [("rule_1_property_attr", ⟨1, 1, 1⟩)], 0⟩

/-- The database after the first pass over `dbW`. -/
def db1W : DB := { dbW with scores := [rowW] }

/-- Witness for C8: a first pass over `dbW` at time 0 produces `db1W`, so
a second pass at time 5 reproduces every row's total and breakdown. -/
theorem compute_scores_idempotent_witness :
    ∃ c2 db2, compute_scores db1W 1 5 = some (c2, db2) ∧ c2 = 1 ∧
      ∀ l p, lookupScore db2.scores l p = lookupScore db1W.scores l p :=
  compute_scores_idempotent dbW 1 0 5 1 db1W (by
    have he : evaluate_rule catEmpty ruleW propW = some 1 := by
      simp [evaluate_rule, eval_property_attr, paramsOf, ruleW, propW, getAttr,
        emptyParams]
    have hsp : score_property catEmpty propW [ruleW] =
        some (100, [("rule_1_property_attr", ⟨1, 1, 1⟩)]) := by
      have hw : ruleW.weight = 1 := rfl
      have hk : ruleKey ruleW = "rule_1_property_attr" := rfl
      have hm : List.mapM (fun r => evaluate_rule catEmpty r propW) [ruleW] =
          some [1] := by
        rw [List.mapM_cons, he]
        rfl
      rw [score_property, hm]
      simp only [score_property_with, List.map_cons, List.map_nil,
        List.sum_cons, List.sum_nil, he, Option.getD_some, hw, hk]
      norm_num [round2, round3, round_eq]
    have hrows : scoreRows catEmpty [ruleW] 1 0 [propW] = some [rowW] := by
      rw [scoreRows, hsp]
      rfl
    rw [compute_scores_found dbW 1 0 profW rfl]
    rw [if_neg (by decide)]
    have hcast : scoreRows dbW.catalog profW.scoring_rules 1 0 dbW.properties =
        some [rowW] := hrows
    rw [hcast]
    rfl)

/-- Witness for the amended C6 statement at the concrete tie store. -/
theorem get_ranked_properties_sorted_desc_witness :
    List.Pairwise (fun a b => b.score.total_score ≤ a.score.total_score)
      (get_ranked_properties dbC6 1) :=
  (get_ranked_properties_sorted_desc dbC6 1).1

end NestScout
